import Mathlib

/-!
Verification of the octo2influx core logic (src/octo2influx.py) against its
natural-language specification.

Shallow embedding conventions:
* Timezone-aware Python `datetime` values that are only ever compared,
  subtracted, or shifted by `timedelta`s are represented by their absolute
  instant as microseconds since the Unix epoch (`Int`).  This is faithful
  because `pytz.localize` and `dateutil.parser.isoparse` both produce
  fixed-offset datetimes, on which Python's aware-datetime arithmetic and
  comparison act exactly like arithmetic on the absolute instant
  (`timedelta(days=1)` advances the instant by 86_400_000_000 µs).
* Float values (prices, consumption) are carried around unchanged by the
  code, so they are modelled as `ℚ` pass-through values.
* The `row` dictionaries of the Octopus API are modelled as structures whose
  optional fields are `Option Int` (`none` models both an absent key and a
  `null`/falsy value, which the code treats identically).
-/

namespace Octo2Influx

/-- Number of microseconds in one second (`timedelta(seconds=1)`). -/
def microsPerSecond : Int := 1000000

/-- Number of microseconds in one day (`timedelta(days=1)`). -/
def microsPerDay : Int := 86400000000

/-- Tariff stream configuration (one entry of the `tariffs` config list). -/
structure Tariff where
  energy_type : String
  direction : String
  product_code : String
  tariff_code : String
  full_name : String
  display_name : String
deriving DecidableEq

/-- Usage stream configuration (one entry of the `usage` config list). -/
structure Usage where
  energy_type : String
  direction : String
  meter_point : String
  meter_serial : String
  unit : String
deriving DecidableEq

/-- One rate row returned by the Octopus API, after `dateutil` parsing of the
timestamps.  `valid_from`/`valid_to` are `none` when the key is absent or its
value is falsy (`null`), the two cases the code treats identically. -/
structure RateRow where
  value_inc_vat : ℚ
  value_exc_vat : ℚ
  valid_from : Option Int
  valid_to : Option Int
deriving DecidableEq

/-- One consumption row returned by the Octopus API, after `dateutil` parsing
of the interval timestamps. -/
structure ConsumptionRow where
  consumption : ℚ
  interval_start : Int
  interval_end : Int
deriving DecidableEq

/-- An InfluxDB point: measurement name, ordered tag list, ordered field list,
and a timestamp (µs since epoch; the nanosecond line-protocol timestamp is
`time * 1000`). -/
structure Point where
  measurement : String
  tags : List (String × String)
  fields : List (String × ℚ)
  time : Int
deriving DecidableEq

/-- Nanosecond-epoch timestamp of a point, as written in line protocol. -/
def Point.timeNs (p : Point) : Int := p.time * 1000

/-- The inner `rate2point` closure of `std_unit_rate_to_points`
(octo2influx.py lines 204-214): builds one tariff point at `tstamp`. -/
def rate2point (measurement : String) (row : RateRow) (price_type unit : String)
    (tariff : Tariff) (tstamp : Int) : Point :=
  { measurement := measurement
    tags := [("energy_type", tariff.energy_type),
             ("direction", tariff.direction),
             ("tariff_code", tariff.tariff_code),
             ("price_type", price_type),
             ("product_code", tariff.product_code),
             ("display_name", tariff.display_name)]
    fields := [(unit ++ "_inc_vat", row.value_inc_vat),
               (unit ++ "_exc_vat", row.value_exc_vat)]
    time := tstamp }

/-- Fuel for the day-stepping while loop: an upper bound on the number of
iterations, so that the fuelled recursion below runs the loop to completion. -/
def rateFuel (valid_from valid_to : Int) : Nat :=
  (valid_to - valid_from).toNat / microsPerDay.toNat + 2

/-- The day-stepping while loop of `std_unit_rate_to_points`
(octo2influx.py lines 228-242), collecting the emitted timestamps in order:

    to_nextday_dt = valid_to + timedelta(days=1)
    cur_dt = valid_from
    while cur_dt < to_nextday_dt:
        if cur_dt >= from_dt - timedelta(days=1):
            points.append(rate2point(cur_dt))
        cur_dt.replace(hour=0, minute=0, second=0, microsecond=0)  # result discarded
        cur_dt += timedelta(days=1)
        if cur_dt > valid_to:
            points.append(rate2point(valid_to))
            break

The `cur_dt.replace(...)` statement discards its result (datetimes are
immutable), so it has no counterpart here. -/
def rateTimes : Nat → Int → Int → Int → List Int
  | 0, _, _, _ => []
  | fuel+1, cur_dt, from_dt, valid_to =>
    if cur_dt < valid_to + microsPerDay then
      (if from_dt - microsPerDay ≤ cur_dt then [cur_dt] else []) ++
      (if valid_to < cur_dt + microsPerDay then [valid_to]
       else rateTimes fuel (cur_dt + microsPerDay) from_dt valid_to)
    else []

/-- Embedding of `std_unit_rate_to_points` (octo2influx.py lines 178-242):
resolve the effective validity bounds from the row and the caller window,
then run the day-stepping loop and build one point per emitted timestamp. -/
def std_unit_rate_to_points (measurement : String) (row : RateRow)
    (price_type unit : String) (tariff : Tariff) (from_dt to_dt : Int) :
    List Point :=
  let valid_from : Int :=
    match row.valid_from with
    | some point_valid_from =>
      -- "Don't allow points older than from_dt" (line 220):
      if point_valid_from > from_dt then point_valid_from else from_dt
    | none => from_dt
  let valid_to : Int :=
    match row.valid_to with
    | some vt => vt - microsPerSecond
    | none => to_dt
  (rateTimes (rateFuel valid_from valid_to) valid_from from_dt valid_to).map
    (rate2point measurement row price_type unit tariff)

/-- Spec-side restatement of the `valid_from` resolution rule (spec §4.1
step 1): the record's own `valid_from` when present, non-null and strictly
later than the window start, otherwise the window start `from_dt`. -/
def effective_valid_from (row : RateRow) (from_dt : Int) : Int :=
  match row.valid_from with
  | some vf => if from_dt < vf then vf else from_dt
  | none => from_dt

/-- Spec-side restatement of the `valid_to` resolution rule (spec §4.1
step 2): the record's own `valid_to` minus one second when present and
non-null, otherwise the window end `to_dt`. -/
def effective_valid_to (row : RateRow) (to_dt : Int) : Int :=
  match row.valid_to with
  | some vt => vt - microsPerSecond
  | none => to_dt

/-- Division of a `timedelta` by 2 as Python performs it on the total
microsecond count: exact when even, and rounded half-to-even when odd. -/
def halfRoundEven (d : Int) : Int :=
  if d % 2 = 0 then d / 2
  else if (d / 2) % 2 = 0 then d / 2 else d / 2 + 1

/-- Embedding of `consumption_to_point` (octo2influx.py lines 245-265):
one point at the interval midpoint, with the interval bounds as epoch-second
fields (`datetime.timestamp()` of a whole-microsecond instant is the instant
divided by 10^6 seconds) and the consumption value under the stream's unit. -/
def consumption_to_point (measurement : String) (row : ConsumptionRow)
    (usage : Usage) : Point :=
  let interval_start := row.interval_start
  let interval_end := row.interval_end
  let mid_dt := interval_start + halfRoundEven (interval_end - interval_start)
  { measurement := measurement
    tags := [("energy_type", usage.energy_type),
             ("direction", usage.direction),
             ("meter_point", usage.meter_point),
             ("meter_serial", usage.meter_serial)]
    fields := [("interval_start", (interval_start : ℚ) / 1000000),
               ("interval_end", (interval_end : ℚ) / 1000000),
               (usage.unit, row.consumption)]
    time := mid_dt }

/-! ### ISO-8601 formatting (`iso8601_from_datetime`, lines 268-272) -/

/-- Gregorian civil date (year, month, day) of a day count relative to
1970-01-01, the standard days-to-civil algorithm used by calendar libraries
(and by Python's `datetime` through its ordinal arithmetic). -/
def civilFromDays (z : Int) : Int × Int × Int :=
  let z2 := z + 719468
  let era := z2 / 146097
  let doe := z2 - era * 146097
  let yoe := (doe - doe / 1460 + doe / 36524 - doe / 146096) / 365
  let y := yoe + era * 400
  let doy := doe - (365 * yoe + yoe / 4 - yoe / 100)
  let mp := (5 * doy + 2) / 153
  let d := doy - (153 * mp + 2) / 5 + 1
  let m := mp + (if mp < 10 then 3 else -9)
  (y + (if m ≤ 2 then 1 else 0), m, d)

/-- Zero-padded two-digit decimal rendering of a calendar field. -/
def pad2 (n : Int) : String :=
  if n < 10 then "0" ++ toString n else toString n

/-- Zero-padded four-digit decimal rendering of a year. -/
def pad4 (n : Int) : String :=
  if n < 10 then "000" ++ toString n
  else if n < 100 then "00" ++ toString n
  else if n < 1000 then "0" ++ toString n
  else toString n

/-- Rendering of a UTC instant (µs since epoch) as
`datetime.isoformat(timespec='seconds')` renders the corresponding naive UTC
datetime: `YYYY-MM-DDTHH:MM:SS`, microseconds truncated. -/
def isoformatSecondsUTC (t : Int) : String :=
  let days := t / microsPerDay
  let rem := t % microsPerDay
  let secOfDay := rem / microsPerSecond
  let hh := secOfDay / 3600
  let mm := secOfDay / 60 % 60
  let ss := secOfDay % 60
  let ymd := civilFromDays days
  pad4 ymd.1 ++ "-" ++ pad2 ymd.2.1 ++ "-" ++ pad2 ymd.2.2 ++ "T" ++
    pad2 hh ++ ":" ++ pad2 mm ++ ":" ++ pad2 ss

/-- A timezone-aware Python datetime: its local wall-clock reading (as µs
since the epoch of the naive wall-clock value) together with its UTC offset
in µs.  The absolute instant it denotes is `wall - utcoffset`. -/
structure AwareDatetime where
  wall : Int
  utcoffset : Int
deriving DecidableEq

/-- Absolute instant denoted by an aware datetime (µs since Unix epoch). -/
def AwareDatetime.instant (dt : AwareDatetime) : Int := dt.wall - dt.utcoffset

/-- Embedding of `iso8601_from_datetime` (octo2influx.py lines 268-272):
convert to UTC (`astimezone(pytz.utc)` yields the wall clock of the absolute
instant), drop the timezone, format with second precision, append `Z`. -/
def iso8601_from_datetime (dt : AwareDatetime) : String :=
  isoformatSecondsUTC dt.instant ++ "Z"

/-! ### Window resolution (lines 275-309 and the `__main__` driver) -/

/-- A timezone in the model: the function mapping a local wall-clock reading
(µs since the epoch of the naive value) to its UTC offset in µs, which is
what `pytz.timezone(...).localize` resolves. -/
def Timezone : Type := Int → Int

/-- Embedding of `datetime_days_ago` (octo2influx.py lines 275-278):
`datetime.now().date()` is modelled by the run-constant day number `today`
(days since epoch, captured once per call site as in the code); the local
wall-clock datetime `combine(today - days_ago, time_of_day)` is localized by
the configured timezone into an absolute instant. -/
def datetime_days_ago (today : Int) (tz : Timezone) (days_ago : Int)
    (time_of_day : Int) : Int :=
  let d := today - days_ago
  let wall := d * microsPerDay + time_of_day
  wall - tz wall

/-- Microseconds of `datetime.min.time()`, i.e. 00:00:00. -/
def time_min : Int := 0

/-- Microseconds of `datetime.max.time()`, i.e. 23:59:59.999999. -/
def time_max : Int := 86399999999

/-- Embedding of `datetime_from_days_ago` (lines 281-283). -/
def datetime_from_days_ago (today : Int) (tz : Timezone) (days_ago : Int) :
    Int :=
  datetime_days_ago today tz days_ago time_min

/-- Embedding of `datetime_to_days_ago` (lines 286-288). -/
def datetime_to_days_ago (today : Int) (tz : Timezone) (days_ago : Int) :
    Int :=
  datetime_days_ago today tz days_ago time_max

/-- Embedding of `query_last_datetime` (octo2influx.py lines 291-309): the
sink query (already bounded by the `from_max_days_ago` lookback range and
sorted ascending by `_time`) returns the row list `results`; the code takes
`results[-1][0]` when non-empty and otherwise falls back to
`datetime_from_days_ago(from_max_days_ago)`. -/
def query_last_datetime (results : List Int) (today : Int) (tz : Timezone)
    (from_max_days_ago : Int) : Int :=
  match results.getLast? with
  | some t => t
  | none => datetime_from_days_ago today tz from_max_days_ago

/-- Per-stream `from` bound of the `__main__` driver (lines 421-428 and
442-446/478-482): the explicit `from_days_ago` override when configured,
otherwise the incremental sink query for this stream's stored rows. -/
def resolve_from_dt (from_days_ago : Option Int) (today : Int) (tz : Timezone)
    (from_max_days_ago : Int) (sink_results : List Int) : Int :=
  match from_days_ago with
  | some n => datetime_from_days_ago today tz n
  | none => query_last_datetime sink_results today tz from_max_days_ago

/-- Per-stream `to` bound of the `__main__` driver: `to_dt` is computed once
before the stream loops (line 419), so it does not depend on the stream's
sink contents. -/
def stream_to_dt (today : Int) (tz : Timezone) (to_days_ago : Int)
    (_sink_results : List Int) : Int :=
  datetime_to_days_ago today tz to_days_ago

/-- Spec-side start-of-day bound: 00:00:00 local of `today - n`, localized. -/
def start_of_day_local (today : Int) (tz : Timezone) (n : Int) : Int :=
  let wall := (today - n) * microsPerDay
  wall - tz wall

/-- Spec-side end-of-day bound: 23:59:59.999999 local of `today - n`,
i.e. one microsecond before the next day's start-of-day wall clock. -/
def end_of_day_local (today : Int) (tz : Timezone) (n : Int) : Int :=
  let wall := (today - n) * microsPerDay + (microsPerDay - 1)
  wall - tz wall

/-! ### Paginated fetching and the sync driver -/

/-- One HTTP response in a pagination chain: whether the status was a
success, the decoded `results` records, and whether a `next` page cue is
present. -/
structure PageResponse where
  ok : Bool
  results : List RateRow
  next : Bool
deriving DecidableEq

/-- Embedding of `retrieve_paginated_data` (octo2influx.py lines 148-175)
over the chain of page responses the server would deliver to the successive
requests: `raise_for_status` on a non-success response is the `Except.error`
case and aborts the whole recursion; otherwise the page's results are
accumulated in front of the following pages' results while a next-page cue
is present. -/
def retrieve_paginated_data : List PageResponse → Except Unit (List RateRow)
  | [] => Except.ok []
  | p :: rest =>
    if p.ok = false then Except.error ()
    else if p.next then
      match retrieve_paginated_data rest with
      | Except.error e => Except.error e
      | Except.ok more => Except.ok (p.results ++ more)
    else Except.ok p.results

/-- The per-stream portion of the `__main__` driver (lines 473-509),
abstracted over the fetch outcome of each stream: streams are processed
sequentially; a successful fetch leads to one write of the expanded points;
a failed fetch raises, which aborts the run, so neither the failing stream
nor any later stream produces a write.  The returned list holds, in order,
the point batch written for each completed stream. -/
def syncRun (expand : List RateRow → List Point) :
    List (Except Unit (List RateRow)) → List (List Point)
  | [] => []
  | Except.error _ :: _ => []
  | Except.ok rows :: rest => expand rows :: syncRun expand rest

/-- Concatenation, in order, of the expansions of a record list (the body of
the `for r in reversed(data): points.extend(...)` loop, lines 499-501). -/
def expandAll (measurement : String) (price_type unit : String)
    (tariff : Tariff) (from_dt to_dt : Int) : List RateRow → List Point
  | [] => []
  | r :: rest =>
    std_unit_rate_to_points measurement r price_type unit tariff from_dt to_dt
      ++ expandAll measurement price_type unit tariff from_dt to_dt rest

/-- The write batch the driver assembles for one tariff stream (lines
495-501): the fetched records arrive newest-first and are reversed, then
each record's expansion is appended in order (`points.extend(...)`). -/
def tariff_batch (measurement : String) (price_type unit : String)
    (tariff : Tariff) (from_dt to_dt : Int) (rows : List RateRow) :
    List Point :=
  expandAll measurement price_type unit tariff from_dt to_dt rows.reverse

/-! ### Loop analysis -/

/-- Literal value of `microsPerDay.toNat`. -/
theorem microsPerDay_toNat : microsPerDay.toNat = 86400000000 := rfl

/-- Positivity of the day length in microseconds, `Nat` form. -/
theorem microsPerDay_toNat_pos : 0 < microsPerDay.toNat := by
  norm_num [microsPerDay_toNat]

/-- Monotonicity of `Int.toNat` against the day length. -/
theorem day_toNat_le {a : Int} (h : microsPerDay ≤ a) :
    microsPerDay.toNat ≤ a.toNat := by
  simp only [microsPerDay] at *
  omega

/-- Comparison with the day length transfers through `Int.toNat`. -/
theorem toNat_lt_day {a : Int} (h : a < microsPerDay) :
    a.toNat < microsPerDay.toNat := by
  simp only [microsPerDay] at *
  omega

/-- Subtracting one day commutes with `Int.toNat` above one day. -/
theorem toNat_sub_day {a : Int} (h : microsPerDay ≤ a) :
    a.toNat - microsPerDay.toNat = (a - microsPerDay).toNat := by
  simp only [microsPerDay] at *
  omega

/-- Prepending the start of an arithmetic progression shifted by one step
yields the progression itself, one element longer. -/
theorem map_add_one_range (k : Nat) (c d : Int) :
    c :: (List.range k).map (fun i : Nat => c + d + (i : Int) * d)
      = (List.range (k+1)).map (fun i : Nat => c + (i : Int) * d) := by
  rw [List.range_succ_eq_map, List.map_cons, List.map_map]
  congr 1
  · simp
  · apply List.map_congr_left
    intro i _
    simp only [Function.comp_apply]
    push_cast
    ring

/-- The day-stepping loop, run with enough fuel from a start at or after the
window start and at or before the resolved `valid_to`, emits exactly the
arithmetic progression `cur, cur + 1day, cur + 2day, ...` while it stays at
or below `valid_to`, followed by one final `valid_to`. -/
theorem rateTimes_closed (fuel : Nat) :
    ∀ (cur from_dt valid_to : Int),
    from_dt ≤ cur → cur ≤ valid_to →
    valid_to - cur < (fuel : Int) * microsPerDay →
    rateTimes fuel cur from_dt valid_to =
      (List.range ((valid_to - cur).toNat / microsPerDay.toNat + 1)).map
        (fun i : Nat => cur + (i : Int) * microsPerDay) ++ [valid_to] := by
  induction fuel with
  | zero =>
    intro cur from_dt valid_to _ h2 h3
    exfalso
    simp only [microsPerDay, Nat.cast_zero, zero_mul] at h3
    omega
  | succ fuel ih =>
    intro cur from_dt valid_to h1 h2 h3
    have hday : (0:Int) < microsPerDay := by norm_num [microsPerDay]
    rw [rateTimes, if_pos (by linarith), if_pos (by linarith)]
    by_cases hbr : valid_to < cur + microsPerDay
    · rw [if_pos hbr]
      have hq : (valid_to - cur).toNat / microsPerDay.toNat = 0 :=
        Nat.div_eq_of_lt (toNat_lt_day (by linarith))
      rw [hq, show List.range 1 = [0] from rfl]
      simp
    · rw [if_neg hbr]
      push_neg at hbr
      have hstep : valid_to - (cur + microsPerDay) < (fuel : Int) * microsPerDay := by
        simp only [microsPerDay] at h3 ⊢
        push_cast at h3
        omega
      rw [ih (cur + microsPerDay) from_dt valid_to (by linarith) (by linarith) hstep]
      have hvc : microsPerDay ≤ valid_to - cur := by linarith
      have hgd : (valid_to - cur).toNat / microsPerDay.toNat
          = (valid_to - (cur + microsPerDay)).toNat / microsPerDay.toNat + 1 := by
        rw [Nat.div_eq_sub_div microsPerDay_toNat_pos (day_toNat_le hvc),
          toNat_sub_day hvc,
          show valid_to - cur - microsPerDay = valid_to - (cur + microsPerDay)
            from by ring]
      rw [hgd, List.singleton_append, ← List.cons_append]
      congr 1
      exact map_add_one_range _ _ _

/-- The fuel assigned by `rateFuel` satisfies the fuel bound of
`rateTimes_closed`. -/
theorem rateFuel_gt (valid_from valid_to : Int) :
    valid_to - valid_from < (rateFuel valid_from valid_to : Int) * microsPerDay := by
  unfold rateFuel
  rw [microsPerDay_toNat]
  simp only [microsPerDay]
  omega

/-- The resolved `valid_from` is never earlier than the window start. -/
theorem le_effective_valid_from (row : RateRow) (from_dt : Int) :
    from_dt ≤ effective_valid_from row from_dt := by
  cases hv : row.valid_from with
  | none => simp [effective_valid_from, hv]
  | some vf =>
    by_cases h : from_dt < vf <;>
      simp [effective_valid_from, hv, h, le_of_lt]

/-- The expander factors through the resolved bounds: its output is the
day-stepping loop started at `effective_valid_from`, bounded by
`effective_valid_to`, mapped through `rate2point`. -/
theorem std_eq_map_rateTimes (measurement : String) (row : RateRow)
    (price_type unit : String) (tariff : Tariff) (from_dt to_dt : Int) :
    std_unit_rate_to_points measurement row price_type unit tariff from_dt to_dt =
      (rateTimes
        (rateFuel (effective_valid_from row from_dt) (effective_valid_to row to_dt))
        (effective_valid_from row from_dt) from_dt
        (effective_valid_to row to_dt)).map
        (rate2point measurement row price_type unit tariff) := by
  unfold std_unit_rate_to_points effective_valid_from effective_valid_to
  rfl

/-- Timestamps of the expander's output, in the within-window case
`effective_valid_from ≤ effective_valid_to`: the closed form of
`rateTimes_closed` at the resolved bounds. -/
theorem std_times_closed (measurement : String) (row : RateRow)
    (price_type unit : String) (tariff : Tariff) (from_dt to_dt : Int)
    (h : effective_valid_from row from_dt ≤ effective_valid_to row to_dt) :
    (std_unit_rate_to_points measurement row price_type unit tariff from_dt to_dt).map
        Point.time =
      (List.range
          (((effective_valid_to row to_dt - effective_valid_from row from_dt).toNat) /
              microsPerDay.toNat + 1)).map
        (fun i : Nat => effective_valid_from row from_dt + (i : Int) * microsPerDay) ++
        [effective_valid_to row to_dt] := by
  rw [std_eq_map_rateTimes,
    rateTimes_closed _ _ _ _ (le_effective_valid_from row from_dt) h
      (rateFuel_gt _ _),
    List.map_map, List.map_append, List.map_map]
  rfl

/-- Arithmetic bound: the last day-step stays at or below `valid_to`. -/
theorem div_mul_day_le {rf rt : Int} (h : rf ≤ rt) :
    rf + (((rt - rf).toNat / microsPerDay.toNat : Nat) : Int) * microsPerDay ≤ rt := by
  rw [microsPerDay_toNat]
  simp only [microsPerDay]
  omega

/-- First timestamp of a within-window expansion: the resolved `valid_from`. -/
theorem std_times_head (measurement : String) (row : RateRow)
    (price_type unit : String) (tariff : Tariff) (from_dt to_dt : Int)
    (h : effective_valid_from row from_dt ≤ effective_valid_to row to_dt) :
    ((std_unit_rate_to_points measurement row price_type unit tariff from_dt
        to_dt).map Point.time).head? =
      some (effective_valid_from row from_dt) := by
  rw [std_times_closed _ _ _ _ _ _ _ h, List.range_succ_eq_map, List.map_cons,
    List.cons_append, List.head?_cons]
  simp

/-- Last timestamp of a within-window expansion: the resolved `valid_to`. -/
theorem std_times_getLast (measurement : String) (row : RateRow)
    (price_type unit : String) (tariff : Tariff) (from_dt to_dt : Int)
    (h : effective_valid_from row from_dt ≤ effective_valid_to row to_dt) :
    ((std_unit_rate_to_points measurement row price_type unit tariff from_dt
        to_dt).map Point.time).getLast? =
      some (effective_valid_to row to_dt) := by
  rw [std_times_closed _ _ _ _ _ _ _ h, List.getLast?_concat]

/-- Timestamps of a within-window expansion are non-decreasing. -/
theorem std_times_chain (measurement : String) (row : RateRow)
    (price_type unit : String) (tariff : Tariff) (from_dt to_dt : Int)
    (h : effective_valid_from row from_dt ≤ effective_valid_to row to_dt) :
    List.Chain' (· ≤ ·)
      ((std_unit_rate_to_points measurement row price_type unit tariff from_dt
        to_dt).map Point.time) := by
  have hday : (0:Int) ≤ microsPerDay := by norm_num [microsPerDay]
  rw [std_times_closed _ _ _ _ _ _ _ h]
  apply List.Chain'.append
  · rw [List.chain'_map]
    refine (List.chain'_range_succ _ _).mpr ?_
    intro m _
    have hm : ((m : Int)) ≤ ((m + 1 : Nat) : Int) := by exact_mod_cast Nat.le_succ m
    have := mul_le_mul_of_nonneg_right hm hday
    linarith
  · simp
  · intro x hx y hy
    rw [List.range_succ, List.map_append] at hx
    simp only [List.map_cons, List.map_nil] at hx
    rw [List.getLast?_concat] at hx
    simp only [List.head?_cons, Option.mem_def, Option.some_inj] at hx hy
    subst hx
    subst hy
    exact div_mul_day_le h

/-- Fuel value in the case where the resolved window is inverted. -/
theorem rateFuel_of_lt {rf rt : Int} (h : rt < rf) : rateFuel rf rt = 2 := by
  unfold rateFuel
  rw [microsPerDay_toNat]
  omega

/-- Loop output in the inverted case that still enters the loop: the start
point is emitted, then the final `valid_to` point — a decreasing pair. -/
theorem rateTimes_two_of_lt {cur from_dt valid_to : Int} (hf : from_dt ≤ cur)
    (hlt : valid_to < cur) (hwin : cur < valid_to + microsPerDay) :
    rateTimes 2 cur from_dt valid_to = [cur, valid_to] := by
  have hday : (0:Int) < microsPerDay := by norm_num [microsPerDay]
  simp only [show (2:Nat) = 1 + 1 from rfl, rateTimes]
  rw [if_pos hwin, if_pos (by linarith), if_pos (by linarith)]
  rfl

/-- Expansion in the partially-overlapping inverted case. -/
theorem std_of_span_lt (measurement : String) (row : RateRow)
    (price_type unit : String) (tariff : Tariff) (from_dt to_dt : Int)
    (hlt : effective_valid_to row to_dt < effective_valid_from row from_dt)
    (hwin : effective_valid_from row from_dt <
      effective_valid_to row to_dt + microsPerDay) :
    std_unit_rate_to_points measurement row price_type unit tariff from_dt to_dt =
      [rate2point measurement row price_type unit tariff
        (effective_valid_from row from_dt),
       rate2point measurement row price_type unit tariff
        (effective_valid_to row to_dt)] := by
  rw [std_eq_map_rateTimes, rateFuel_of_lt hlt,
    rateTimes_two_of_lt (le_effective_valid_from row from_dt) hlt hwin]
  rfl

/-- Expansion in the fully-disjoint inverted case: no point at all. -/
theorem std_nil_of_ge (measurement : String) (row : RateRow)
    (price_type unit : String) (tariff : Tariff) (from_dt to_dt : Int)
    (hgap : effective_valid_to row to_dt + microsPerDay ≤
      effective_valid_from row from_dt) :
    std_unit_rate_to_points measurement row price_type unit tariff from_dt to_dt =
      [] := by
  have hday : (0:Int) < microsPerDay := by norm_num [microsPerDay]
  rw [std_eq_map_rateTimes, rateFuel_of_lt (by linarith)]
  simp only [show (2:Nat) = 1 + 1 from rfl, rateTimes]
  rw [if_neg (not_lt.mpr hgap)]
  rfl

/-- Concatenating the expansions of an oldest-first record list whose
records all overlap the window (`effective_valid_from ≤ effective_valid_to`)
and whose consecutive resolved spans do not overlap backwards yields a batch
that is non-decreasing in timestamp. -/
theorem expandAll_chain (measurement : String) (price_type unit : String)
    (tariff : Tariff) (from_dt to_dt : Int) :
    ∀ rows : List RateRow,
      (∀ r ∈ rows,
        effective_valid_from r from_dt ≤ effective_valid_to r to_dt) →
      List.Chain'
        (fun a b => effective_valid_to a to_dt ≤ effective_valid_from b from_dt)
        rows →
      List.Chain' (· ≤ ·)
        ((expandAll measurement price_type unit tariff from_dt to_dt rows).map
          Point.time) := by
  intro rows
  induction rows with
  | nil =>
    intro _ _
    simp [expandAll]
  | cons r rest ih =>
    intro hall hchain
    rw [expandAll, List.map_append]
    apply List.Chain'.append
    · exact std_times_chain measurement r price_type unit tariff from_dt to_dt
        (hall r (List.mem_cons_self r rest))
    · exact ih (fun r2 hr2 => hall r2 (List.mem_cons_of_mem _ hr2))
        ((List.chain'_cons'.mp hchain).2)
    · intro x hx y hy
      rw [std_times_getLast measurement r price_type unit tariff from_dt to_dt
        (hall r (List.mem_cons_self r rest))] at hx
      simp only [Option.mem_def, Option.some_inj] at hx
      subst hx
      cases rest with
      | nil =>
        simp [expandAll] at hy
      | cons r2 rest2 =>
        have hr2 : effective_valid_from r2 from_dt ≤ effective_valid_to r2 to_dt :=
          hall r2 (List.mem_cons_of_mem _ (List.mem_cons_self r2 rest2))
        have hne : ((std_unit_rate_to_points measurement r2 price_type unit
            tariff from_dt to_dt).map Point.time) ≠ [] := by
          intro hnil
          have hh := std_times_head measurement r2 price_type unit tariff
            from_dt to_dt hr2
          rw [hnil] at hh
          simp at hh
        rw [expandAll, List.map_append,
          List.head?_append_of_ne_nil _ hne,
          std_times_head measurement r2 price_type unit tariff from_dt to_dt hr2]
          at hy
        simp only [Option.mem_def, Option.some_inj] at hy
        subst hy
        exact (List.chain'_cons.mp hchain).1

/-! ### Concrete inputs from the repository's test suite -/

/-- Tariff configuration used by the repository tests (`tariffs[3]` of
`config.example.yaml`). -/
def exTariff : Tariff :=
  ⟨"electricity", "import", "FLUX-IMPORT-23-02-14",
   "E-1R-FLUX-IMPORT-23-02-14-C", "Octopus Flux Import", "Octopus Flux Import"⟩

/-- Usage stream configuration used by the repository tests (`usage[0]`). -/
def exUsage : Usage :=
  ⟨"electricity", "import", "mpan", "serial_number", "kWh"⟩

/-- Window start `2023-12-17T00:00 Europe/London` (GMT, so UTC), in µs. -/
def winFrom : Int := 1702771200000000

/-- Window end `2023-12-22T23:59:59 Europe/London` (GMT, so UTC), in µs. -/
def winTo : Int := 1703289599000000

/-- The long-validity rate record of the tests: valid `2023-03-31T23:00:00Z`
to `2024-01-01T00:00:00Z`, standing charge 36.53874/34.7988 p/day. -/
def longRow : RateRow :=
  ⟨36.53874, 34.7988, some 1680303600000000, some 1704067200000000⟩

/-- The short-validity rate record of the tests: valid `2023-12-19T16:00:00Z`
to `2023-12-19T19:00:00Z`, unit rate 39.799515/37.9043 p/kWh. -/
def shortRow : RateRow :=
  ⟨39.799515, 37.9043, some 1703001600000000, some 1703012400000000⟩

/-- A rate record contiguous with `shortRow`: valid `2023-12-19T19:00:00Z`
to `2023-12-19T22:00:00Z`. -/
def shortRow2 : RateRow :=
  ⟨1, 1, some 1703012400000000, some 1703023200000000⟩

/-- A record whose validity ended (one second) before the window start
2 days after the epoch: its resolved span is inverted. -/
def staleRow : RateRow := ⟨1, 1, none, some 172800000000⟩

/-- A record whose resolved `valid_from` equals its resolved `valid_to`:
no explicit `valid_from`, and `valid_to` one second after the window start
at the epoch. -/
def zeroSpanRow : RateRow := ⟨1, 1, none, some 1000000⟩

/-- The consumption record of the tests: 1.214 kWh over
`2023-12-19T04:30:00Z` to `2023-12-19T05:00:00Z`. -/
def exConsRow : ConsumptionRow :=
  ⟨1.214, 1702960200000000, 1702962000000000⟩

/-! ### Claims -/

/-- C1, counterexample: for the long-validity record of the test suite
(valid 2023-03-31T23:00:00Z to 2024-01-01T00:00:00Z, window
2023-12-17T00:00 to 2023-12-22T23:59:59 Europe/London), the expansion has
16 points, not the 15 the claim states — matching the 16 expected
line-protocol strings of `test_std_unit_rate_to_points_long_point_validity`. -/
theorem long_validity_not_fifteen_points :
    (std_unit_rate_to_points "octopus-tariffs" longRow "standing-charges"
      "p/day" exTariff winFrom winTo).length = 16 ∧
    (std_unit_rate_to_points "octopus-tariffs" longRow "standing-charges"
      "p/day" exTariff winFrom winTo).length ≠ 15 := by
  constructor
  · decide
  · decide

/-- C1, amended: for a record whose resolved validity span covers multiple
days, `std_unit_rate_to_points` emits one point per day walked in 24-hour
increments from the resolved `valid_from`, plus a final point exactly at
the resolved `valid_to`; for the concrete record valid 2023-03-31T23:00:00Z
to 2024-01-01T00:00:00Z over the window [2023-12-17T00:00,
2023-12-22T23:59:59] Europe/London the output is exactly 16 points whose
last timestamp is 1704067199000000000 ns (stated `valid_to` minus one
second). -/
theorem long_validity_expansion :
    (∀ (measurement : String) (row : RateRow) (price_type unit : String)
      (tariff : Tariff) (from_dt to_dt : Int),
      effective_valid_from row from_dt ≤ effective_valid_to row to_dt →
      (std_unit_rate_to_points measurement row price_type unit tariff from_dt
        to_dt).map Point.time =
        (List.range
          ((effective_valid_to row to_dt - effective_valid_from row from_dt).toNat /
            microsPerDay.toNat + 1)).map
          (fun i : Nat =>
            effective_valid_from row from_dt + (i : Int) * microsPerDay) ++
          [effective_valid_to row to_dt]) ∧
    (std_unit_rate_to_points "octopus-tariffs" longRow "standing-charges"
      "p/day" exTariff winFrom winTo).map Point.timeNs =
      [1702771200000000000, 1702857600000000000, 1702944000000000000,
       1703030400000000000, 1703116800000000000, 1703203200000000000,
       1703289600000000000, 1703376000000000000, 1703462400000000000,
       1703548800000000000, 1703635200000000000, 1703721600000000000,
       1703808000000000000, 1703894400000000000, 1703980800000000000,
       1704067199000000000] := by
  constructor
  · exact std_times_closed
  · decide

/-- C1, witness for the amended theorem's hypothesis: the long-validity
record's resolved span is within the window, and its expansion follows the
closed day-step form. -/
theorem long_validity_expansion_witness :
    effective_valid_from longRow winFrom ≤ effective_valid_to longRow winTo ∧
    (std_unit_rate_to_points "octopus-tariffs" longRow "standing-charges"
      "p/day" exTariff winFrom winTo).map Point.time =
      (List.range
        ((effective_valid_to longRow winTo - effective_valid_from longRow winFrom).toNat /
          microsPerDay.toNat + 1)).map
        (fun i : Nat =>
          effective_valid_from longRow winFrom + (i : Int) * microsPerDay) ++
        [effective_valid_to longRow winTo] :=
  ⟨by decide,
   long_validity_expansion.1 "octopus-tariffs" longRow "standing-charges"
     "p/day" exTariff winFrom winTo (by decide)⟩

/-- C2: when the resolved bounds satisfy `valid_from < valid_to` with less
than 24 hours between them, the expansion is exactly two points, one at the
resolved `valid_from` and one at the resolved `valid_to`. -/
theorem short_validity_two_points (measurement : String) (row : RateRow)
    (price_type unit : String) (tariff : Tariff) (from_dt to_dt : Int)
    (hlt : effective_valid_from row from_dt < effective_valid_to row to_dt)
    (hspan : effective_valid_to row to_dt - effective_valid_from row from_dt <
      microsPerDay) :
    std_unit_rate_to_points measurement row price_type unit tariff from_dt
      to_dt =
      [rate2point measurement row price_type unit tariff
        (effective_valid_from row from_dt),
       rate2point measurement row price_type unit tariff
        (effective_valid_to row to_dt)] := by
  rw [std_eq_map_rateTimes,
    rateTimes_closed _ _ _ _ (le_effective_valid_from row from_dt)
      (le_of_lt hlt) (rateFuel_gt _ _),
    Nat.div_eq_of_lt (toNat_lt_day (by linarith)),
    show List.range 1 = [0] from rfl]
  simp

/-- C2, witness: the short-validity record of the test suite (valid
2023-12-19T16:00:00Z to 2023-12-19T19:00:00Z) expands to exactly the two
points at its resolved bounds. -/
theorem short_validity_two_points_witness :
    effective_valid_from shortRow winFrom < effective_valid_to shortRow winTo ∧
    effective_valid_to shortRow winTo - effective_valid_from shortRow winFrom <
      microsPerDay ∧
    std_unit_rate_to_points "octopus-tariffs" shortRow "standard-unit-rates"
      "p/kWh" exTariff winFrom winTo =
      [rate2point "octopus-tariffs" shortRow "standard-unit-rates" "p/kWh"
        exTariff (effective_valid_from shortRow winFrom),
       rate2point "octopus-tariffs" shortRow "standard-unit-rates" "p/kWh"
        exTariff (effective_valid_to shortRow winTo)] :=
  ⟨by decide, by decide,
   short_validity_two_points "octopus-tariffs" shortRow "standard-unit-rates"
     "p/kWh" exTariff winFrom winTo (by decide) (by decide)⟩

/-- C3, counterexample: a record whose resolved `valid_from` equals its
resolved `valid_to` (here both equal the window start) expands to 2 points,
not exactly one as the claim states. -/
theorem zero_span_not_one_point :
    effective_valid_from zeroSpanRow 0 =
      effective_valid_to zeroSpanRow 864000000000000 ∧
    (std_unit_rate_to_points "m" zeroSpanRow "pt" "u" exTariff 0
      864000000000000).length ≠ 1 := by
  constructor
  · decide
  · decide

/-- C3, amended: when the resolved `valid_from` equals the resolved
`valid_to`, the expansion is exactly two points, both timestamped at that
shared instant (the loop emits the start point and then the final
`valid_to` point without noticing they coincide). -/
theorem zero_span_two_points (measurement : String) (row : RateRow)
    (price_type unit : String) (tariff : Tariff) (from_dt to_dt : Int)
    (heq : effective_valid_from row from_dt = effective_valid_to row to_dt) :
    std_unit_rate_to_points measurement row price_type unit tariff from_dt
      to_dt =
      [rate2point measurement row price_type unit tariff
        (effective_valid_from row from_dt),
       rate2point measurement row price_type unit tariff
        (effective_valid_to row to_dt)] := by
  have hday : (0:Int) < microsPerDay := by norm_num [microsPerDay]
  rw [std_eq_map_rateTimes,
    rateTimes_closed _ _ _ _ (le_effective_valid_from row from_dt)
      (le_of_eq heq) (rateFuel_gt _ _),
    Nat.div_eq_of_lt (toNat_lt_day (by linarith)),
    show List.range 1 = [0] from rfl]
  simp

/-- C3, witness for the amended theorem: the concrete zero-span record
expands to its two coincident points. -/
theorem zero_span_two_points_witness :
    effective_valid_from zeroSpanRow 0 =
      effective_valid_to zeroSpanRow 864000000000000 ∧
    std_unit_rate_to_points "m" zeroSpanRow "pt" "u" exTariff 0
      864000000000000 =
      [rate2point "m" zeroSpanRow "pt" "u" exTariff
        (effective_valid_from zeroSpanRow 0),
       rate2point "m" zeroSpanRow "pt" "u" exTariff
        (effective_valid_to zeroSpanRow 864000000000000)] :=
  ⟨by decide,
   zero_span_two_points "m" zeroSpanRow "pt" "u" exTariff 0 864000000000000
     (by decide)⟩

/-- C4: the expander resolves its effective bounds exactly as the spec
states — it factors through `effective_valid_from`/`effective_valid_to`,
the effective `valid_from` is the record's own bound exactly when present
and strictly later than the window start (and the window start otherwise,
so it is never earlier than the window start), and the effective `valid_to`
is the record's own bound minus one second when present (the window end
otherwise). -/
theorem std_resolution :
    ∀ (measurement : String) (row : RateRow) (price_type unit : String)
      (tariff : Tariff) (from_dt to_dt : Int),
    (std_unit_rate_to_points measurement row price_type unit tariff from_dt
      to_dt =
      (rateTimes
        (rateFuel (effective_valid_from row from_dt)
          (effective_valid_to row to_dt))
        (effective_valid_from row from_dt) from_dt
        (effective_valid_to row to_dt)).map
        (rate2point measurement row price_type unit tariff)) ∧
    from_dt ≤ effective_valid_from row from_dt ∧
    (∀ vf, row.valid_from = some vf → from_dt < vf →
      effective_valid_from row from_dt = vf) ∧
    (∀ vf, row.valid_from = some vf → ¬ from_dt < vf →
      effective_valid_from row from_dt = from_dt) ∧
    (row.valid_from = none → effective_valid_from row from_dt = from_dt) ∧
    (∀ vt, row.valid_to = some vt →
      effective_valid_to row to_dt = vt - microsPerSecond) ∧
    (row.valid_to = none → effective_valid_to row to_dt = to_dt) := by
  intro measurement row price_type unit tariff from_dt to_dt
  refine ⟨std_eq_map_rateTimes _ _ _ _ _ _ _,
    le_effective_valid_from row from_dt, ?_, ?_, ?_, ?_, ?_⟩
  · intro vf hvf hlt
    simp [effective_valid_from, hvf, hlt]
  · intro vf hvf hlt
    simp [effective_valid_from, hvf, hlt]
  · intro hvf
    simp [effective_valid_from, hvf]
  · intro vt hvt
    simp [effective_valid_to, hvt]
  · intro hvt
    simp [effective_valid_to, hvt]

/-- C4, witness: the long-validity record's stated `valid_from` is not
later than the window start, so the resolved `valid_from` is the window
start; its stated `valid_to` resolves to itself minus one second. -/
theorem std_resolution_witness :
    longRow.valid_from = some 1680303600000000 ∧
    ¬ winFrom < 1680303600000000 ∧
    effective_valid_from longRow winFrom = winFrom ∧
    longRow.valid_to = some 1704067200000000 ∧
    effective_valid_to longRow winTo = 1704067200000000 - microsPerSecond :=
  ⟨rfl, by decide,
   (std_resolution "m" longRow "pt" "u" exTariff winFrom winTo).2.2.2.1
     1680303600000000 rfl (by decide),
   rfl,
   (std_resolution "m" longRow "pt" "u" exTariff winFrom winTo).2.2.2.2.2.1
     1704067200000000 rfl⟩

/-- C5: for every consumption record, the single emitted point carries the
stream's tags, the interval bounds as epoch-second fields, the consumption
value under the stream's unit, and (whenever the interval length is an even
number of microseconds, in particular for whole-second intervals) a
timestamp at the exact midpoint `interval_start + (interval_end -
interval_start) / 2`. -/
theorem consumption_midpoint (measurement : String) (row : ConsumptionRow)
    (usage : Usage) (hlt : row.interval_start < row.interval_end)
    (hev : (2:Int) ∣ (row.interval_end - row.interval_start)) :
    consumption_to_point measurement row usage =
      { measurement := measurement
        tags := [("energy_type", usage.energy_type),
                 ("direction", usage.direction),
                 ("meter_point", usage.meter_point),
                 ("meter_serial", usage.meter_serial)]
        fields := [("interval_start", (row.interval_start : ℚ) / 1000000),
                   ("interval_end", (row.interval_end : ℚ) / 1000000),
                   (usage.unit, row.consumption)]
        time := row.interval_start +
          (row.interval_end - row.interval_start) / 2 } := by
  have h2 : (row.interval_end - row.interval_start) % 2 = 0 :=
    Int.emod_eq_zero_of_dvd hev
  simp [consumption_to_point, halfRoundEven, h2]

/-- C5, witness: the test-suite consumption record (1.214 kWh over
2023-12-19T04:30:00Z..05:00:00Z) yields one point at 2023-12-19T04:45:00Z,
i.e. 1702961100 epoch seconds, with fields interval_start=1702960200,
interval_end=1702962000, kWh=1.214. -/
theorem consumption_midpoint_witness :
    exConsRow.interval_start < exConsRow.interval_end ∧
    (2:Int) ∣ (exConsRow.interval_end - exConsRow.interval_start) ∧
    consumption_to_point "octopus-usage" exConsRow exUsage =
      { measurement := "octopus-usage"
        tags := [("energy_type", "electricity"), ("direction", "import"),
                 ("meter_point", "mpan"), ("meter_serial", "serial_number")]
        fields := [("interval_start", 1702960200),
                   ("interval_end", 1702962000), ("kWh", 1.214)]
        time := 1702961100000000 } :=
  ⟨by decide, by decide,
   (consumption_midpoint "octopus-usage" exConsRow exUsage (by decide)
     (by decide)).trans (by norm_num [exConsRow, exUsage])⟩

/-- C6, counterexample: for a record whose validity ended before the window
start (resolved span inverted), the expansion's timestamps are decreasing —
the loop emits the window start first and then the earlier resolved
`valid_to` — so the single-record output is not non-decreasing for every
record. -/
theorem expander_order_counterexample :
    ¬ List.Chain' (fun a b : Int => a ≤ b)
      ((std_unit_rate_to_points "m" staleRow "pt" "u" exTariff 172800000000
        259200000000).map Point.time) := by
  intro hch
  rw [show (std_unit_rate_to_points "m" staleRow "pt" "u" exTariff
      172800000000 259200000000).map Point.time =
      [172800000000, 172799000000] from by decide] at hch
  rw [List.chain'_pair] at hch
  exact absurd hch (by decide)

/-- C6, amended: for every record whose resolved span is not inverted
(`effective_valid_from ≤ effective_valid_to`, i.e. the record overlaps the
window), the expansion is non-decreasing in timestamp; a consumption record
always yields a (trivially ordered) single point; and the concatenated
tariff write batch over oldest-first records with non-overlapping resolved
spans is non-decreasing in timestamp across the whole batch. -/
theorem batch_order :
    (∀ (measurement : String) (row : RateRow) (price_type unit : String)
      (tariff : Tariff) (from_dt to_dt : Int),
      effective_valid_from row from_dt ≤ effective_valid_to row to_dt →
      List.Chain' (· ≤ ·)
        ((std_unit_rate_to_points measurement row price_type unit tariff
          from_dt to_dt).map Point.time)) ∧
    (∀ (measurement : String) (row : ConsumptionRow) (usage : Usage),
      List.Chain' (· ≤ ·)
        ([consumption_to_point measurement row usage].map Point.time)) ∧
    (∀ (measurement : String) (price_type unit : String) (tariff : Tariff)
      (from_dt to_dt : Int) (rows : List RateRow),
      (∀ r ∈ rows,
        effective_valid_from r from_dt ≤ effective_valid_to r to_dt) →
      List.Chain'
        (fun a b => effective_valid_to a to_dt ≤ effective_valid_from b from_dt)
        rows.reverse →
      List.Chain' (· ≤ ·)
        ((tariff_batch measurement price_type unit tariff from_dt to_dt
          rows).map Point.time)) := by
  refine ⟨std_times_chain, ?_, ?_⟩
  · intro measurement row usage
    simp
  · intro measurement price_type unit tariff from_dt to_dt rows hall hchain
    exact expandAll_chain measurement price_type unit tariff from_dt to_dt
      rows.reverse (fun r hr => hall r (List.mem_reverse.mp hr)) hchain

/-- C6, witness for the amended theorem: two contiguous rate records,
delivered newest-first as the API does, produce a non-decreasing write
batch. -/
theorem batch_order_witness :
    (∀ r ∈ [shortRow2, shortRow],
      effective_valid_from r winFrom ≤ effective_valid_to r winTo) ∧
    List.Chain'
      (fun a b => effective_valid_to a winTo ≤ effective_valid_from b winFrom)
      ([shortRow2, shortRow].reverse) ∧
    List.Chain' (· ≤ ·)
      ((tariff_batch "octopus-tariffs" "standard-unit-rates" "p/kWh" exTariff
        winFrom winTo [shortRow2, shortRow]).map Point.time) := by
  have hchain : List.Chain'
      (fun a b => effective_valid_to a winTo ≤ effective_valid_from b winFrom)
      ([shortRow2, shortRow].reverse) := by
    rw [show ([shortRow2, shortRow] : List RateRow).reverse =
      [shortRow, shortRow2] from rfl]
    exact List.chain'_pair.mpr (by decide)
  exact ⟨by decide, hchain,
    batch_order.2.2 "octopus-tariffs" "standard-unit-rates" "p/kWh" exTariff
      winFrom winTo [shortRow2, shortRow] (by decide) hchain⟩

/-- C7: the per-stream `to` bound is end-of-day (23:59:59.999999 in the
configured timezone) of `today - to_days_ago` and is identical for every
stream; in explicit mode the `from` bound is start-of-day of
`today - from_days_ago` for every stream; in incremental mode the `from`
bound is the most recent timestamp the sink query returned, falling back to
start-of-day of `today - from_max_days_ago` when the sink returned
nothing. -/
theorem window_resolution :
    (∀ (today : Int) (tz : Timezone) (n : Int) (sink : List Int),
      stream_to_dt today tz n sink = end_of_day_local today tz n) ∧
    (∀ (today : Int) (tz : Timezone) (n : Int) (s1 s2 : List Int),
      stream_to_dt today tz n s1 = stream_to_dt today tz n s2) ∧
    (∀ (n today : Int) (tz : Timezone) (fmax : Int) (sink : List Int),
      resolve_from_dt (some n) today tz fmax sink =
        start_of_day_local today tz n) ∧
    (∀ (today : Int) (tz : Timezone) (fmax : Int),
      resolve_from_dt none today tz fmax [] =
        start_of_day_local today tz fmax) ∧
    (∀ (today : Int) (tz : Timezone) (fmax : Int) (sink : List Int)
      (h : sink ≠ []),
      resolve_from_dt none today tz fmax sink = sink.getLast h) := by
  refine ⟨?_, ?_, ?_, ?_, ?_⟩
  · intro today tz n sink
    unfold stream_to_dt datetime_to_days_ago datetime_days_ago
      end_of_day_local time_max microsPerDay
    norm_num
  · intro today tz n s1 s2
    rfl
  · intro n today tz fmax sink
    unfold resolve_from_dt datetime_from_days_ago datetime_days_ago
      start_of_day_local time_min
    norm_num
  · intro today tz fmax
    unfold resolve_from_dt query_last_datetime datetime_from_days_ago
      datetime_days_ago start_of_day_local time_min
    norm_num
  · intro today tz fmax sink h
    unfold resolve_from_dt query_last_datetime
    rw [List.getLast?_eq_getLast_of_ne_nil h]

/-- C7, witness: with a sink that returned two timestamps, incremental mode
resumes from the most recent one. -/
theorem window_resolution_witness :
    ([1000, 5000] : List Int) ≠ [] ∧
    resolve_from_dt none 19700 (fun _ => 0) 600 [1000, 5000] = 5000 :=
  ⟨by decide,
   (window_resolution.2.2.2.2 19700 (fun _ => 0) 600 [1000, 5000]
     (by decide)).trans rfl⟩

/-- C8: `iso8601_from_datetime` depends only on the absolute instant a
timezone-aware datetime denotes (it converts to UTC first), and renders it
with second precision and a literal `Z` suffix: 2023-06-02T15:00:00+01:00
(British Summer Time) renders as "2023-06-02T14:00:00Z" and
2024-01-10T15:00:00Z renders unchanged as "2024-01-10T15:00:00Z". -/
theorem iso8601_utc :
    (∀ d1 d2 : AwareDatetime, d1.instant = d2.instant →
      iso8601_from_datetime d1 = iso8601_from_datetime d2) ∧
    iso8601_from_datetime ⟨1685718000000000, 3600000000⟩ =
      "2023-06-02T14:00:00Z" ∧
    iso8601_from_datetime ⟨1704898800000000, 0⟩ = "2024-01-10T15:00:00Z" := by
  refine ⟨?_, by decide, by decide⟩
  intro d1 d2 h
  unfold iso8601_from_datetime
  rw [h]

/-- C8, witness: the summer-time aware datetime denotes the same instant as
its UTC rendering, so both format identically. -/
theorem iso8601_utc_witness :
    (AwareDatetime.mk 1685718000000000 3600000000).instant =
      (AwareDatetime.mk 1685714400000000 0).instant ∧
    iso8601_from_datetime ⟨1685718000000000, 3600000000⟩ =
      iso8601_from_datetime ⟨1685714400000000, 0⟩ :=
  ⟨by decide,
   iso8601_utc.1 ⟨1685718000000000, 3600000000⟩ ⟨1685714400000000, 0⟩
     (by decide)⟩

/-- C9: a non-success response on any page of the followed pagination chain
makes `retrieve_paginated_data` raise (return an error) — no partial record
list is ever returned — and in the sequential driver a stream whose fetch
fails produces no write while the writes of all streams completed before it
are exactly the expansions of their fetched records, unaffected. -/
theorem fetch_failure_isolation :
    (∀ (pre : List PageResponse) (p : PageResponse) (rest : List PageResponse),
      (∀ q ∈ pre, q.ok = true ∧ q.next = true) → p.ok = false →
      retrieve_paginated_data (pre ++ p :: rest) = Except.error ()) ∧
    (∀ (expand : List RateRow → List Point) (oks : List (List RateRow))
      (rest : List (Except Unit (List RateRow))),
      syncRun expand (oks.map Except.ok ++ Except.error () :: rest) =
        oks.map expand) := by
  constructor
  · intro pre
    induction pre with
    | nil =>
      intro p rest _ hp
      rw [List.nil_append, retrieve_paginated_data, if_pos hp]
    | cons q pre ih =>
      intro p rest hall hp
      have hq := hall q (List.mem_cons_self q pre)
      rw [List.cons_append, retrieve_paginated_data,
        if_neg (by simp [hq.1]), if_pos hq.2,
        ih p rest (fun r hr => hall r (List.mem_cons_of_mem _ hr)) hp]
  · intro expand oks
    induction oks with
    | nil =>
      intro rest
      rfl
    | cons rows oks ih =>
      intro rest
      rw [List.map_cons, List.cons_append, syncRun, ih rest, List.map_cons]

/-- C9, witness: a chain whose second page has a non-success status yields
an error (and hence no records), rather than the first page's records. -/
theorem fetch_failure_isolation_witness :
    (∀ q ∈ [(⟨true, [], true⟩ : PageResponse)], q.ok = true ∧ q.next = true) ∧
    (⟨false, [], false⟩ : PageResponse).ok = false ∧
    retrieve_paginated_data [⟨true, [], true⟩, ⟨false, [], false⟩] =
      Except.error () :=
  ⟨by decide, rfl,
   fetch_failure_isolation.1 [⟨true, [], true⟩] ⟨false, [], false⟩ []
     (by decide) rfl⟩

/-- C10: every point the day-stepping loop emits other than the final
`valid_to` point sits exactly at the resolved `valid_from` plus a whole
number of 24-hour steps — the discarded `cur_dt.replace(hour=0, ...)` never
truncates an intermediate timestamp to midnight. -/
theorem day_step_no_truncation :
    ∀ (measurement : String) (row : RateRow) (price_type unit : String)
      (tariff : Tariff) (from_dt to_dt : Int) (p : Point),
      p ∈ (std_unit_rate_to_points measurement row price_type unit tariff
        from_dt to_dt).dropLast →
      ∃ k : Nat, p.time =
        effective_valid_from row from_dt + (k : Int) * microsPerDay := by
  intro measurement row price_type unit tariff from_dt to_dt p hp
  have hday : (0:Int) < microsPerDay := by norm_num [microsPerDay]
  rcases le_or_lt (effective_valid_from row from_dt)
      (effective_valid_to row to_dt) with hle | hlt
  · rw [std_eq_map_rateTimes,
      rateTimes_closed _ _ _ _ (le_effective_valid_from row from_dt) hle
        (rateFuel_gt _ _),
      List.map_append] at hp
    simp only [List.map_cons, List.map_nil] at hp
    rw [List.dropLast_concat, List.map_map] at hp
    obtain ⟨i, _, hpi⟩ := List.mem_map.mp hp
    refine ⟨i, ?_⟩
    rw [← hpi]
    rfl
  · rcases lt_or_le (effective_valid_from row from_dt)
        (effective_valid_to row to_dt + microsPerDay) with hwin | hgap
    · rw [std_of_span_lt measurement row price_type unit tariff from_dt to_dt
        hlt hwin] at hp
      simp only [List.dropLast, List.mem_singleton] at hp
      subst hp
      exact ⟨0, by simp [rate2point]⟩
    · rw [std_nil_of_ge measurement row price_type unit tariff from_dt to_dt
        hgap] at hp
      simp at hp

/-- C10, witness: the non-final point of the short-validity expansion sits
at the resolved `valid_from` plus zero day-steps. -/
theorem day_step_no_truncation_witness :
    rate2point "octopus-tariffs" shortRow "standard-unit-rates" "p/kWh"
      exTariff 1703001600000000 ∈
      (std_unit_rate_to_points "octopus-tariffs" shortRow "standard-unit-rates"
        "p/kWh" exTariff winFrom winTo).dropLast ∧
    ∃ k : Nat,
      (rate2point "octopus-tariffs" shortRow "standard-unit-rates" "p/kWh"
        exTariff 1703001600000000).time =
        effective_valid_from shortRow winFrom + (k : Int) * microsPerDay := by
  have hmem : rate2point "octopus-tariffs" shortRow "standard-unit-rates"
      "p/kWh" exTariff 1703001600000000 ∈
      (std_unit_rate_to_points "octopus-tariffs" shortRow "standard-unit-rates"
        "p/kWh" exTariff winFrom winTo).dropLast := by
    rw [show (std_unit_rate_to_points "octopus-tariffs" shortRow
        "standard-unit-rates" "p/kWh" exTariff winFrom winTo).dropLast =
      [rate2point "octopus-tariffs" shortRow "standard-unit-rates" "p/kWh"
        exTariff 1703001600000000] from rfl]
    exact List.mem_singleton_self _
  exact ⟨hmem,
    day_step_no_truncation "octopus-tariffs" shortRow "standard-unit-rates"
      "p/kWh" exTariff winFrom winTo _ hmem⟩

end Octo2Influx
